import Mathlib

deriving instance DecidableEq for Except

/-!
Shallow embedding of the PyDesigner front end (src/dwipi.py and
src/designer/pydesigner.py).

`src/dwipi.py` defines class `DWI` with `__init__` (load a NIfTI image and
its companion `.bval`/`.bvec` gradient files) and `createTensorOrder`
(combinatorial index/multiplicity tables for symmetric tensors).

`src/designer/pydesigner.py` is a module that, at import time, locates the
`dwidenoise` and `fsl` executables (raising if either is missing) and then
parses the command line with argparse.

Python-side effects are made explicit: the filesystem and the numeric file
loaders are a record of functions (`FS`), the host executable search is a
record (`Host`), failure is `Except PyError`, and printed output is returned
as a list of strings.  Python's `assert e` raises `AssertionError` exactly
when `e` is falsy; a non-empty string is truthy (`pyTruthy`).  A local
variable read before any assignment raises `UnboundLocalError`, modelled by
`PyError.unboundLocal`.
-/

set_option linter.unusedVariables false

namespace PyDesigner

/-- The Python-level errors that the embedded code can raise, plus the error
kinds the specification names (`notFound`, `usageError`). -/
inductive PyError where
  | assertionError
  | unboundLocal (name : String)
  | valueError
  | usageError
  | exception (msg : String)
  | notFound
  deriving DecidableEq, Repr

/-- Truthiness of a Python string: non-empty strings are truthy. -/
def pyTruthy (s : String) : Bool := s ≠ ""

/-- Python's `assert e`: raises `AssertionError` exactly when `e` is falsy. -/
def pyAssert (b : Bool) : Except PyError Unit :=
  if b then .ok () else .error .assertionError

/-- `Except.isOk` as a plain Boolean discriminator. -/
def exceptOk {ε α : Type} (e : Except ε α) : Bool :=
  match e with
  | .ok _ => true
  | .error _ => false

/-- Split a character list at every occurrence of `c` (the separator is
dropped); the list of fragments is never empty. -/
def chSplit (c : Char) : List Char → List (List Char)
  | [] => [[]]
  | x :: xs =>
      let r := chSplit c xs
      if x = c then [] :: r
      else
        match r with
        | [] => [[x]]
        | h :: t => (x :: h) :: t

/-- `s.split(c)` over the string's character data. -/
def strSplitOn (c : Char) (s : String) : List String :=
  (chSplit c s.data).map String.mk

/-- Join strings with a separator (`sep.join(parts)`). -/
def strJoin (sep : String) : List String → String
  | [] => ""
  | [x] => x
  | x :: y :: xs => x ++ sep ++ strJoin sep (y :: xs)

/-- `s.endswith(t)`. -/
def strEndsWith (s t : String) : Bool := t.data.isSuffixOf s.data

/-- `s.startswith(t)`. -/
def strStartsWith (s t : String) : Bool := t.data.isPrefixOf s.data

/-- `os.path.split p`: directory part and final component, splitting at the
last `/`. -/
def ospath_split (p : String) : String × String :=
  let parts := strSplitOn '/' p
  (strJoin "/" parts.dropLast, parts.getLastD "")

/-- `os.path.splitext file`: base name and extension, splitting at the last
`.` of the final component. -/
def ospath_splitext (file : String) : String × String :=
  let parts := strSplitOn '.' file
  if parts.length ≤ 1 then (file, "")
  else (strJoin "." parts.dropLast, "." ++ parts.getLastD "")

/-- `os.path.join p f` for a relative final component `f`. -/
def ospath_join (p f : String) : String :=
  if p = "" then f
  else if strEndsWith p "/" then p ++ f
  else p ++ "/" ++ f

/-- `os.path.dirname`. -/
def ospath_dirname (p : String) : String := (ospath_split p).1

/-- `np.rint q`: round to the nearest integer, ties to the nearest even
integer, as an integer-valued rational.  `f = q.num.fdiv q.den` is `⌊q⌋`
(the denominator is positive), and since `q - f < 1/2 ↔ 2*q.num <
(2*f+1)*q.den`, the three comparisons below are the fraction-part tests
`< 1/2`, `> 1/2` and the half-way tie, resolved to the even neighbour. -/
def rint (q : ℚ) : ℚ :=
  let f : ℤ := Int.fdiv q.num (q.den : ℤ)
  if 2 * q.num < (2 * f + 1) * (q.den : ℤ) then (f : ℚ)
  else if (2 * f + 1) * (q.den : ℤ) < 2 * q.num then ((f + 1 : ℤ) : ℚ)
  else if f % 2 = 0 then (f : ℚ) else ((f + 1 : ℤ) : ℚ)

/-- `np.transpose m` for a rectangular 2-D table: column `j` of `m` becomes
row `j` of the result. -/
def npTranspose (m : List (List ℚ)) : List (List ℚ) :=
  (List.range (m.headD []).length).map (fun j => m.map (fun row => row.getD j 0))

/-- `np.c_[m, v]`: append `v` as an extra column of `m`; numpy raises
`ValueError` when the first dimensions disagree. -/
def np_c (m : List (List ℚ)) (v : List ℚ) : Except PyError (List (List ℚ)) :=
  if m.length = v.length then
    .ok (List.zipWith (fun row b => row ++ [b]) m v)
  else .error .valueError

/-- The external-world interface of `DWI.__init__`: path existence
(`os.path.exists`), the NIfTI decoder (`nib.load` / `np.array(hdr.dataobj)`)
and `np.loadtxt` for the 2-D `.bvec` and 1-D `.bval` files.  `Hdr` and `Img`
are the opaque header/voxel-data types of the third-party libraries. -/
structure FS (Hdr Img : Type) where
  pathExists : String → Bool
  nibLoad : String → Hdr
  toArray : Hdr → Img
  loadtxtMat : String → List (List ℚ)
  loadtxtVec : String → List ℚ

/-- The attributes a constructed `DWI` object holds: `self.hdr`, `self.img`
and (only when both companion files existed) `self.grad`. -/
structure DWI (Hdr Img : Type) where
  hdr : Hdr
  img : Img
  grad : Option (List (List ℚ))
  deriving DecidableEq

/-- The NIfTI file name with its extension stripped, as `DWI.__init__`
computes it from `os.path.split` and `os.path.splitext`. -/
def fNameOf (imPath : String) : String :=
  (ospath_splitext (ospath_split imPath).2).1

/-- The companion b-value path: `os.path.join(path, fName + '.bval')`. -/
def bvalPathOf (imPath : String) : String :=
  ospath_join (ospath_split imPath).1 (fNameOf imPath ++ ".bval")

/-- The companion b-vector path: `os.path.join(path, fName + '.bvec')`. -/
def bvecPathOf (imPath : String) : String :=
  ospath_join (ospath_split imPath).1 (fNameOf imPath ++ ".bvec")

/-- `DWI.__init__(self, imPath)` from src/dwipi.py, lines 8-25.  Returns the
constructed object together with the lines printed, or the Python error
raised.  The `assert('...')` guards evaluate a non-empty string literal; the
final `print` reads `fName`, which in the path-missing branch was never
assigned, so that branch ends in `UnboundLocalError`. -/
def DWI.init {Hdr Img : Type} (fs : FS Hdr Img) (imPath : String) :
    Except PyError (DWI Hdr Img × List String) :=
  if fs.pathExists imPath then
    let hdr := fs.nibLoad imPath
    let img := fs.toArray hdr
    let fName := fNameOf imPath
    let bvalPath := bvalPathOf imPath
    let bvecPath := bvecPathOf imPath
    if fs.pathExists bvalPath && fs.pathExists bvecPath then
      let bvecs := fs.loadtxtMat bvecPath
      let bvals := (fs.loadtxtVec bvalPath).map rint
      match np_c (npTranspose bvecs) bvals with
      | .error e => .error e
      | .ok grad =>
          .ok ({ hdr := hdr, img := img, grad := some grad },
               ["Image " ++ fName ++ ".nii loaded successfully"])
    else
      match pyAssert (pyTruthy "Unable to locate BVAL or BVEC files") with
      | .error e => .error e
      | .ok _ =>
          .ok ({ hdr := hdr, img := img, grad := none },
               ["Image " ++ fName ++ ".nii loaded successfully"])
  else
    match pyAssert (pyTruthy "File in path not found. Please locate file and try again") with
    | .error e => .error e
    | .ok _ => .error (.unboundLocal "fName")

/-- `DWI.createTensorOrder(self, order)` from src/dwipi.py, lines 27-37.
The locals `cnt` and `ind` start unassigned (`none`); each `if` assigns
them; the final `return cnt, ind` raises `UnboundLocalError` when neither
branch ran.  The index tables are written 1-based and broadcast-subtracted
by 1, exactly as in the source. -/
def DWI.createTensorOrder {Hdr Img : Type} (self : DWI Hdr Img) (order : Int) :
    Except PyError ((List Int × List (List Int)) × DWI Hdr Img) :=
  let st2 : Option (List Int) × Option (List (List Int)) :=
    if order = 2 then
      (some [1, 2, 2, 1, 2, 1],
       some (([[1, 1], [1, 2], [1, 3], [2, 2], [2, 3], [3, 3]] :
           List (List Int)).map (fun r => r.map (fun x => x - 1))))
    else (none, none)
  let st4 : Option (List Int) × Option (List (List Int)) :=
    if order = 4 then
      (some [1, 4, 4, 6, 12, 6, 4, 12, 12, 4, 1, 4, 6, 4, 1],
       some (([[1, 1, 1, 1], [1, 1, 1, 2], [1, 1, 1, 3], [1, 1, 2, 2],
           [1, 1, 2, 3], [1, 1, 3, 3], [1, 2, 2, 2], [1, 2, 2, 3],
           [1, 2, 3, 3], [1, 3, 3, 3], [2, 2, 2, 2], [2, 2, 2, 3],
           [2, 2, 3, 3], [2, 3, 3, 3], [3, 3, 3, 3]] :
           List (List Int)).map (fun r => r.map (fun x => x - 1))))
    else st2
  match st4 with
  | (some cnt, some ind) => .ok ((cnt, ind), self)
  | _ => .error (.unboundLocal "cnt")

/-- The argparse namespace of src/designer/pydesigner.py: one field per
`add_argument` destination, with the declared defaults (`store_true` flags
default to `False`; options without a default parse to `None`). -/
structure Args where
  dwi : String
  output : Option String
  standard : Bool
  denoise : Bool
  extent : String
  eddy : Bool
  b1correct : Bool
  scaleb0median : Bool
  smooth : Bool
  DTI : Bool
  DKI : Bool
  WMTI : Bool
  kcumulants : Bool
  mask : Bool
  fit_constraints : String
  rpe_none : Bool
  rpe_pair : Option String
  rpe_all : Option String
  pe_dir : Option String
  deriving DecidableEq, Repr

/-- The parser's declared defaults (the `dwi` field is filled from the
mandatory positional, so its placeholder here is never returned). -/
def defaultArgs : Args :=
  { dwi := "", output := none, standard := false, denoise := false,
    extent := "5,5,5", eddy := false, b1correct := false,
    scaleb0median := false, smooth := false, DTI := false, DKI := false,
    WMTI := false, kcumulants := false, mask := false,
    fit_constraints := "0,1,0", rpe_none := false, rpe_pair := none,
    rpe_all := none, pe_dir := none }

/-- One token-consuming pass of argparse over the declared argument surface:
`store_true` flags set their Boolean; value options consume the next token;
an unrecognised `-`-prefixed token, a missing option value, a second
positional, or a missing mandatory positional is a usage error (argparse
prints usage and exits non-zero). -/
def parseLoop : List String → Args → Option String → Except PyError Args
  | [], a, pos =>
      match pos with
      | some d => .ok { a with dwi := d }
      | none => .error .usageError
  | t :: rest, a, pos =>
      if t = "-s" ∨ t = "--standard" then
        parseLoop rest { a with standard := true } pos
      else if t = "--denoise" then
        parseLoop rest { a with denoise := true } pos
      else if t = "--eddy" then
        parseLoop rest { a with eddy := true } pos
      else if t = "--b1correct" then
        parseLoop rest { a with b1correct := true } pos
      else if t = "--scaleb0median" then
        parseLoop rest { a with scaleb0median := true } pos
      else if t = "--smooth" then
        parseLoop rest { a with smooth := true } pos
      else if t = "-d" ∨ t = "--DTI" then
        parseLoop rest { a with DTI := true } pos
      else if t = "-k" ∨ t = "--DKI" then
        parseLoop rest { a with DKI := true } pos
      else if t = "-w" ∨ t = "--WMTI" then
        parseLoop rest { a with WMTI := true } pos
      else if t = "--kcumulants" then
        parseLoop rest { a with kcumulants := true } pos
      else if t = "--mask" then
        parseLoop rest { a with mask := true } pos
      else if t = "--rpe_none" then
        parseLoop rest { a with rpe_none := true } pos
      else if t = "-o" ∨ t = "--output" then
        match rest with
        | [] => .error .usageError
        | v :: rest2 => parseLoop rest2 { a with output := some v } pos
      else if t = "--extent" then
        match rest with
        | [] => .error .usageError
        | v :: rest2 => parseLoop rest2 { a with extent := v } pos
      else if t = "--fit_constraints" then
        match rest with
        | [] => .error .usageError
        | v :: rest2 => parseLoop rest2 { a with fit_constraints := v } pos
      else if t = "--rpe_pair" then
        match rest with
        | [] => .error .usageError
        | v :: rest2 => parseLoop rest2 { a with rpe_pair := some v } pos
      else if t = "--rpe_all" then
        match rest with
        | [] => .error .usageError
        | v :: rest2 => parseLoop rest2 { a with rpe_all := some v } pos
      else if t = "--pe_dir" then
        match rest with
        | [] => .error .usageError
        | v :: rest2 => parseLoop rest2 { a with pe_dir := some v } pos
      else if strStartsWith t "-" then .error .usageError
      else
        match pos with
        | none => parseLoop rest a (some t)
        | some _ => .error .usageError

/-- `parser.parse_args()` over an explicit argument vector. -/
def parseArgs (argv : List String) : Except PyError Args :=
  parseLoop argv defaultArgs none

/-- The observable steps of running the pydesigner module: each
`shutil.which` lookup, and the `parser.parse_args()` call. -/
inductive Event where
  | whichCall : String → Event
  | parseArgsCall : Event
  deriving DecidableEq, Repr

/-- The host environment: `shutil.which` as a function from executable name
to an optional absolute path. -/
structure Host where
  which : String → Option String

/-- Module-level execution of src/designer/pydesigner.py: look up
`dwidenoise` (raise if absent), derive `mrtrix3path`; look up `fsl` (raise
if absent), derive `fslpath`; then parse the arguments.  The first
component records the events in order. -/
def pydesignerModule (host : Host) (argv : List String) :
    List Event × Except PyError Args :=
  match host.which "dwidenoise" with
  | none =>
      ([.whichCall "dwidenoise"],
       .error (.exception
         "Cannot find mrtrix3, please see https://github.com/m-ama/PyDesigner/wiki to troubleshoot."))
  | some dwidenoise_location =>
      let mrtrix3path := ospath_dirname dwidenoise_location
      match host.which "fsl" with
      | none =>
          ([.whichCall "dwidenoise", .whichCall "fsl"],
           .error (.exception
             "Cannot find FSL, please see https://github.com/m-ama/PyDesigner/wiki to troubleshoot."))
      | some fsl_location =>
          let fslpath := ospath_dirname fsl_location
          ([.whichCall "dwidenoise", .whichCall "fsl", .parseArgsCall],
           parseArgs argv)

/-! Concrete fixtures used by the closed witness theorems.  The opaque
third-party header/voxel types are instantiated at `Nat`. -/

/-- A filesystem with the image and both companion gradient files, a 3x3
`.bvec` table and three b-values (the third one fractional, 1999.6). -/
def fsFull : FS Nat Nat :=
  { pathExists := fun p =>
      p = "/data/scan.nii" ∨ p = "/data/scan.bval" ∨ p = "/data/scan.bvec",
    nibLoad := fun _ => 7, toArray := fun h => h + 1,
    loadtxtMat := fun _ => [[1, 0, 0], [0, 1, 0], [0, 0, 1]],
    loadtxtVec := fun _ => [0, 1000, Rat.divInt 9998 5] }

/-- A filesystem with the image and the `.bvec` companion but no `.bval`. -/
def fsNoBval : FS Nat Nat :=
  { pathExists := fun p => p = "/data/scan.nii" ∨ p = "/data/scan.bvec",
    nibLoad := fun _ => 7, toArray := fun h => h + 1,
    loadtxtMat := fun _ => [[1, 0, 0], [0, 1, 0], [0, 0, 1]],
    loadtxtVec := fun _ => [0, 1000, 2000] }

/-- A filesystem on which no path exists. -/
def emptyFS : FS Nat Nat :=
  { pathExists := fun _ => false, nibLoad := fun _ => 0, toArray := fun h => h,
    loadtxtMat := fun _ => [], loadtxtVec := fun _ => [] }

/-- A host on which no executable can be located. -/
def hostBare : Host := { which := fun _ => none }

/-- C2: `createTensorOrder(2)` returns multiplicities exactly
`[1, 2, 2, 1, 2, 1]` (summing to 9) and indices consisting of exactly the 6
pairs (0,0), (0,1), (0,2), (1,1), (1,2), (2,2) in that order, each element
in \x7b0,1,2\x7d, with no duplicate tuples. -/
theorem createTensorOrder_order2 {Hdr Img : Type} (s : DWI Hdr Img) :
    DWI.createTensorOrder s 2 =
      .ok (([1, 2, 2, 1, 2, 1],
            [[0, 0], [0, 1], [0, 2], [1, 1], [1, 2], [2, 2]]), s) ∧
    ([1, 2, 2, 1, 2, 1] : List Int).sum = 9 ∧
    ([[0, 0], [0, 1], [0, 2], [1, 1], [1, 2], [2, 2]] : List (List Int)).length = 6 ∧
    (∀ p ∈ ([[0, 0], [0, 1], [0, 2], [1, 1], [1, 2], [2, 2]] : List (List Int)),
        p.length = 2 ∧ ∀ x ∈ p, x ∈ ([0, 1, 2] : List Int)) ∧
    ([[0, 0], [0, 1], [0, 2], [1, 1], [1, 2], [2, 2]] : List (List Int)).Nodup :=
  ⟨rfl, by decide, by decide, by decide, by decide⟩

/-- C3: `createTensorOrder(4)` returns multiplicities exactly
`[1, 4, 4, 6, 12, 6, 4, 12, 12, 4, 1, 4, 6, 4, 1]` (summing to 81) and
indices consisting of exactly 15 quadruples of length 4, each element in
\x7b0,1,2\x7d, with no duplicate tuples, listed from (0,0,0,0) through
(2,2,2,2) in the enumerated order. -/
theorem createTensorOrder_order4 {Hdr Img : Type} (s : DWI Hdr Img) :
    DWI.createTensorOrder s 4 =
      .ok (([1, 4, 4, 6, 12, 6, 4, 12, 12, 4, 1, 4, 6, 4, 1],
            [[0, 0, 0, 0], [0, 0, 0, 1], [0, 0, 0, 2], [0, 0, 1, 1],
             [0, 0, 1, 2], [0, 0, 2, 2], [0, 1, 1, 1], [0, 1, 1, 2],
             [0, 1, 2, 2], [0, 2, 2, 2], [1, 1, 1, 1], [1, 1, 1, 2],
             [1, 1, 2, 2], [1, 2, 2, 2], [2, 2, 2, 2]]), s) ∧
    ([1, 4, 4, 6, 12, 6, 4, 12, 12, 4, 1, 4, 6, 4, 1] : List Int).sum = 81 ∧
    ([[0, 0, 0, 0], [0, 0, 0, 1], [0, 0, 0, 2], [0, 0, 1, 1],
      [0, 0, 1, 2], [0, 0, 2, 2], [0, 1, 1, 1], [0, 1, 1, 2],
      [0, 1, 2, 2], [0, 2, 2, 2], [1, 1, 1, 1], [1, 1, 1, 2],
      [1, 1, 2, 2], [1, 2, 2, 2], [2, 2, 2, 2]] : List (List Int)).length = 15 ∧
    (∀ p ∈ ([[0, 0, 0, 0], [0, 0, 0, 1], [0, 0, 0, 2], [0, 0, 1, 1],
        [0, 0, 1, 2], [0, 0, 2, 2], [0, 1, 1, 1], [0, 1, 1, 2],
        [0, 1, 2, 2], [0, 2, 2, 2], [1, 1, 1, 1], [1, 1, 1, 2],
        [1, 1, 2, 2], [1, 2, 2, 2], [2, 2, 2, 2]] : List (List Int)),
        p.length = 4 ∧ ∀ x ∈ p, x ∈ ([0, 1, 2] : List Int)) ∧
    ([[0, 0, 0, 0], [0, 0, 0, 1], [0, 0, 0, 2], [0, 0, 1, 1],
      [0, 0, 1, 2], [0, 0, 2, 2], [0, 1, 1, 1], [0, 1, 1, 2],
      [0, 1, 2, 2], [0, 2, 2, 2], [1, 1, 1, 1], [1, 1, 1, 2],
      [1, 1, 2, 2], [1, 2, 2, 2], [2, 2, 2, 2]] : List (List Int)).Nodup :=
  ⟨rfl, by decide, by decide, by decide, by decide⟩

/-- C8: `createTensorOrder` is pure and deterministic: its value part is the
same for any two instance states, and it returns the instance it was called
on unchanged. -/
theorem createTensorOrder_pure {Hdr Img : Type} (s1 s2 : DWI Hdr Img)
    (order : Int) :
    (DWI.createTensorOrder s1 order).map Prod.fst =
      (DWI.createTensorOrder s2 order).map Prod.fst ∧
    (DWI.createTensorOrder s1 order).map Prod.snd =
      (DWI.createTensorOrder s1 order).map (fun _ => s1) := by
  unfold DWI.createTensorOrder
  by_cases h2 : order = 2
  · subst h2
    simp [Except.map]
  · by_cases h4 : order = 4
    · subst h4
      simp [h2, Except.map]
    · simp [h2, h4, Except.map]

/-- C9: for every order value other than 2 and 4 the locals `cnt` and `ind`
stay unassigned and the final return raises `UnboundLocalError`; the call
raises if and only if the order is neither 2 nor 4. -/
theorem createTensorOrder_raises_iff {Hdr Img : Type} (s : DWI Hdr Img)
    (order : Int) :
    DWI.createTensorOrder s order = .error (.unboundLocal "cnt") ↔
      (order ≠ 2 ∧ order ≠ 4) := by
  unfold DWI.createTensorOrder
  by_cases h2 : order = 2
  · subst h2
    simp
  · by_cases h4 : order = 4
    · subst h4
      simp [h2]
    · simp [h2, h4]

/-- C4: at a nonexistent path, construction does fail, but not with the
NotFound error the specification states: the `assert` guard passes (it
evaluates a non-empty string) and the subsequent confirmation `print` reads
the never-assigned local `fName`, raising `UnboundLocalError` instead. -/
theorem init_nonexistent_unboundLocal :
    DWI.init emptyFS "/data/scan.nii" = .error (.unboundLocal "fName") ∧
    DWI.init emptyFS "/data/scan.nii" ≠ .error .notFound :=
  ⟨by decide, by decide⟩

/-- C5: the guard for a missing companion `.bval`/`.bvec` file is a Python
`assert` applied to a non-empty string: every non-empty string is truthy, so
the assertion passes, and for every input reaching that branch (image
present, a companion missing) the construction raises no error at all. -/
theorem missing_companion_guard_passes {Hdr Img : Type} (fs : FS Hdr Img)
    (imPath : String) (s : String) (hs : s ≠ "")
    (himg : fs.pathExists imPath = true)
    (hmiss : (fs.pathExists (bvalPathOf imPath) &&
        fs.pathExists (bvecPathOf imPath)) = false) :
    pyAssert (pyTruthy s) = .ok () ∧
    exceptOk (DWI.init fs imPath) = true := by
  constructor
  · simp [pyAssert, pyTruthy, hs]
  · simp [DWI.init, himg, hmiss, pyAssert, pyTruthy, exceptOk]

/-- Witness for C5 at the guard's own string literal and a concrete
filesystem whose `.bval` companion is missing. -/
theorem missing_companion_guard_passes_witness :
    "Unable to locate BVAL or BVEC files" ≠ "" ∧
    fsNoBval.pathExists "/data/scan.nii" = true ∧
    (fsNoBval.pathExists (bvalPathOf "/data/scan.nii") &&
        fsNoBval.pathExists (bvecPathOf "/data/scan.nii")) = false ∧
    (pyAssert (pyTruthy "Unable to locate BVAL or BVEC files") = .ok () ∧
      exceptOk (DWI.init fsNoBval "/data/scan.nii") = true) :=
  ⟨by decide, by decide, by decide,
    missing_companion_guard_passes fsNoBval "/data/scan.nii"
      "Unable to locate BVAL or BVEC files" (by decide) (by decide) (by decide)⟩

/-- C10: when the image exists but a companion `.bval` or `.bvec` file is
missing, construction completes without raising: the confirmation message
naming the image is printed and the object holds the header and voxel data
but no gradient table at all (`grad = none`). -/
theorem init_missing_companion {Hdr Img : Type} (fs : FS Hdr Img)
    (imPath : String)
    (himg : fs.pathExists imPath = true)
    (hmiss : (fs.pathExists (bvalPathOf imPath) &&
        fs.pathExists (bvecPathOf imPath)) = false) :
    DWI.init fs imPath =
      .ok ({ hdr := fs.nibLoad imPath, img := fs.toArray (fs.nibLoad imPath),
             grad := none },
           ["Image " ++ fNameOf imPath ++ ".nii loaded successfully"]) := by
  simp [DWI.init, himg, hmiss, pyAssert, pyTruthy]

/-- Witness for C10 on a concrete filesystem whose `.bval` file is
missing. -/
theorem init_missing_companion_witness :
    fsNoBval.pathExists "/data/scan.nii" = true ∧
    (fsNoBval.pathExists (bvalPathOf "/data/scan.nii") &&
        fsNoBval.pathExists (bvecPathOf "/data/scan.nii")) = false ∧
    DWI.init fsNoBval "/data/scan.nii" =
      .ok ({ hdr := fsNoBval.nibLoad "/data/scan.nii",
             img := fsNoBval.toArray (fsNoBval.nibLoad "/data/scan.nii"),
             grad := none },
           ["Image " ++ fNameOf "/data/scan.nii" ++ ".nii loaded successfully"]) :=
  ⟨by decide, by decide,
    init_missing_companion fsNoBval "/data/scan.nii" (by decide) (by decide)⟩

/-- C1: when the image and both companion files exist, the constructed
gradient table has `n` rows of 4 columns, row `i` being
`[Gx_i, Gy_i, Gz_i, rint Bvalue_i]`: the first three columns are the
transpose of the 3-by-`n` b-vector table and the fourth is the b-values
rounded to the nearest integer, in the input volume order. -/
theorem init_gradientTable {Hdr Img : Type} (fs : FS Hdr Img)
    (imPath : String) (n : ℕ) (r0 r1 r2 bv : List ℚ)
    (himg : fs.pathExists imPath = true)
    (hbval : fs.pathExists (bvalPathOf imPath) = true)
    (hbvec : fs.pathExists (bvecPathOf imPath) = true)
    (hmat : fs.loadtxtMat (bvecPathOf imPath) = [r0, r1, r2])
    (h0 : r0.length = n) (h1 : r1.length = n) (h2 : r2.length = n)
    (hvec : fs.loadtxtVec (bvalPathOf imPath) = bv) (hn : bv.length = n) :
    ∃ st out, DWI.init fs imPath = .ok (st, out) ∧
      ∃ g, st.grad = some g ∧ g.length = n ∧
        (∀ i, i < n → (g.getD i []).length = 4) ∧
        (∀ i, i < n →
          g.getD i [] =
            [r0.getD i 0, r1.getD i 0, r2.getD i 0, rint (bv.getD i 0)]) := by
  have hlen1 : (npTranspose [r0, r1, r2]).length = n := by
    simp [npTranspose, h0]
  have hlen2 : (bv.map rint).length = n := by simp [hn]
  have hok : np_c (npTranspose [r0, r1, r2]) (bv.map rint) =
      .ok (List.zipWith (fun row b => row ++ [b])
        (npTranspose [r0, r1, r2]) (bv.map rint)) := by
    rw [np_c, if_pos (by rw [hlen1, hlen2])]
  have hg : ∀ i, i < n →
      (List.zipWith (fun row b => row ++ [b])
          (npTranspose [r0, r1, r2]) (bv.map rint)).getD i [] =
        [r0.getD i 0, r1.getD i 0, r2.getD i 0, rint (bv.getD i 0)] := by
    intro i hi
    have hiz : i < (List.zipWith (fun row b => row ++ [b])
        (npTranspose [r0, r1, r2]) (bv.map rint)).length := by
      rw [List.length_zipWith, hlen1, hlen2]
      omega
    have hibv : i < bv.length := by omega
    rw [List.getD_eq_getElem _ _ hiz, List.getElem_zipWith,
      List.getD_eq_getElem bv 0 hibv]
    simp [npTranspose]
  refine ⟨⟨fs.nibLoad imPath, fs.toArray (fs.nibLoad imPath),
      some (List.zipWith (fun row b => row ++ [b])
        (npTranspose [r0, r1, r2]) (bv.map rint))⟩,
    ["Image " ++ fNameOf imPath ++ ".nii loaded successfully"], ?_,
    List.zipWith (fun row b => row ++ [b])
      (npTranspose [r0, r1, r2]) (bv.map rint), rfl, ?_, ?_, hg⟩
  · simp only [DWI.init, himg, hbval, hbvec, hmat, hvec, Bool.and_self,
      if_true, hok]
  · rw [List.length_zipWith, hlen1, hlen2]
    omega
  · intro i hi
    rw [hg i hi]
    rfl

/-- Witness for C1 on a concrete filesystem with a 3x3 identity b-vector
table and b-values 0, 1000 and 1999.6 (rounding to 2000). -/
theorem init_gradientTable_witness :
    fsFull.pathExists "/data/scan.nii" = true ∧
    fsFull.loadtxtMat (bvecPathOf "/data/scan.nii") =
      [[1, 0, 0], [0, 1, 0], [0, 0, 1]] ∧
    fsFull.loadtxtVec (bvalPathOf "/data/scan.nii") =
      [0, 1000, Rat.divInt 9998 5] ∧
    (∃ st out, DWI.init fsFull "/data/scan.nii" = .ok (st, out) ∧
      ∃ g, st.grad = some g ∧ g.length = 3 ∧
        (∀ i, i < 3 → (g.getD i []).length = 4) ∧
        (∀ i, i < 3 →
          g.getD i [] =
            [([1, 0, 0] : List ℚ).getD i 0, ([0, 1, 0] : List ℚ).getD i 0,
             ([0, 0, 1] : List ℚ).getD i 0,
             rint (([0, 1000, Rat.divInt 9998 5] : List ℚ).getD i 0)])) :=
  ⟨by decide, rfl, rfl,
    init_gradientTable fsFull "/data/scan.nii" 3
      [1, 0, 0] [0, 1, 0] [0, 0, 1] [0, 1000, Rat.divInt 9998 5]
      (by decide) (by decide) (by decide) rfl
      (by decide) (by decide) (by decide) rfl (by decide)⟩

/-- C6: if `dwidenoise` is absent from the executable search path the module
run fails and the argument-parsing step is never reached; independently, the
same holds when `fsl` is absent. -/
theorem toolchain_abort_before_parse (host : Host) (argv : List String) :
    (host.which "dwidenoise" = none →
      exceptOk (pydesignerModule host argv).2 = false ∧
      Event.parseArgsCall ∉ (pydesignerModule host argv).1) ∧
    (host.which "fsl" = none →
      exceptOk (pydesignerModule host argv).2 = false ∧
      Event.parseArgsCall ∉ (pydesignerModule host argv).1) := by
  constructor
  · intro h
    simp [pydesignerModule, h, exceptOk]
  · intro h
    cases hd : host.which "dwidenoise" with
    | none => simp [pydesignerModule, hd, exceptOk]
    | some loc => simp [pydesignerModule, hd, h, exceptOk]

/-- C7 counterexample: with only the dataset argument, the parsed `output`
is `None`, not the dataset's directory: the parser declares no default for
`-o, --output` (only its help text mentions one), and nothing in the module
fills it in. -/
theorem parseArgs_output_default_cex :
    (parseArgs ["/data/scan.nii"]).map Args.output = .ok none ∧
    (parseArgs ["/data/scan.nii"]).map Args.output ≠
      .ok (some (ospath_dirname "/data/scan.nii")) :=
  ⟨rfl, by decide⟩

/-- C7 as amended: with only the dataset argument, parsing succeeds with
every declared default — `output` is left unset (None), `extent` is
"5,5,5", `fit_constraints` is "0,1,0", and every Boolean flag is false —
and with no dataset argument parsing is a usage error. -/
theorem parseArgs_defaults :
    (∀ p : String, strStartsWith p "-" = false →
      parseArgs [p] = .ok { defaultArgs with dwi := p }) ∧
    defaultArgs.output = none ∧
    defaultArgs.extent = "5,5,5" ∧
    defaultArgs.fit_constraints = "0,1,0" ∧
    defaultArgs.standard = false ∧ defaultArgs.denoise = false ∧
    defaultArgs.eddy = false ∧ defaultArgs.b1correct = false ∧
    defaultArgs.scaleb0median = false ∧ defaultArgs.smooth = false ∧
    defaultArgs.DTI = false ∧ defaultArgs.DKI = false ∧
    defaultArgs.WMTI = false ∧ defaultArgs.kcumulants = false ∧
    defaultArgs.mask = false ∧ defaultArgs.rpe_none = false ∧
    parseArgs [] = .error .usageError := by
  refine ⟨?_, rfl, rfl, rfl, rfl, rfl, rfl, rfl, rfl, rfl, rfl, rfl, rfl,
    rfl, rfl, rfl, rfl⟩
  intro p hp
  have hne : ∀ q : String, strStartsWith q "-" = true → p ≠ q := by
    intro q hq h
    rw [h, hq] at hp
    exact absurd hp (by decide)
  show parseLoop [p] defaultArgs none = _
  rw [parseLoop]
  rw [if_neg (by rintro (h | h) <;> exact hne _ (by decide) h)]
  rw [if_neg (hne "--denoise" (by decide))]
  rw [if_neg (hne "--eddy" (by decide))]
  rw [if_neg (hne "--b1correct" (by decide))]
  rw [if_neg (hne "--scaleb0median" (by decide))]
  rw [if_neg (hne "--smooth" (by decide))]
  rw [if_neg (by rintro (h | h) <;> exact hne _ (by decide) h)]
  rw [if_neg (by rintro (h | h) <;> exact hne _ (by decide) h)]
  rw [if_neg (by rintro (h | h) <;> exact hne _ (by decide) h)]
  rw [if_neg (hne "--kcumulants" (by decide))]
  rw [if_neg (hne "--mask" (by decide))]
  rw [if_neg (hne "--rpe_none" (by decide))]
  rw [if_neg (by rintro (h | h) <;> exact hne _ (by decide) h)]
  rw [if_neg (hne "--extent" (by decide))]
  rw [if_neg (hne "--fit_constraints" (by decide))]
  rw [if_neg (hne "--rpe_pair" (by decide))]
  rw [if_neg (hne "--rpe_all" (by decide))]
  rw [if_neg (hne "--pe_dir" (by decide))]
  rw [if_neg (by rw [hp]; exact Bool.false_ne_true)]
  rfl

end PyDesigner
